import Mathlib

/-!
Shallow embedding of the `network` Django application
(src/network/models.py and src/network/views.py).

The entity store is modelled as explicit lists held in a `State`
structure; each request handler becomes a pure function from a state
and request data to a response and a new state.  Timestamps are `Nat`,
database ids are `Nat`.  The ORM ordering `Meta.ordering = ['-timestamp']`
(SQL `ORDER BY timestamp DESC`, which fixes no relative order for rows
with equal timestamps) is modelled as one deterministic refinement: a
stable sort, descending by timestamp, over the insertion-ordered row
list.  Django's `Paginator.get_page` is embedded following its library
definition (non-integers give page 1, out-of-range integers give the
last page).
-/

namespace Network

/-- A row of the `User` table (models.py `User`): id, unique username,
email, password credential. -/
structure UserRec where
  id : Nat
  username : String
  email : String
  password : String
  deriving DecidableEq

/-- A row of the `Post` table (models.py `Post`): author id, free-text
content, creation timestamp. -/
structure Post where
  id : Nat
  user : Nat
  content : String
  timestamp : Nat
  deriving DecidableEq

/-- A row of the `Like` table (models.py `Like`): a (user, post) pair. -/
structure LikeRec where
  user : Nat
  post : Nat
  deriving DecidableEq

/-- A row of the `Follow` table (models.py `Follow`): a
(follower, following) pair of user ids. -/
structure FollowRec where
  follower : Nat
  following : Nat
  deriving DecidableEq

/-- The entity store: the four tables in insertion order, plus the next
fresh primary keys and the current clock used for `auto_now_add`. -/
structure State where
  users : List UserRec
  posts : List Post
  likes : List LikeRec
  follows : List FollowRec
  nextUserId : Nat
  nextPostId : Nat
  now : Nat
  deriving DecidableEq

/-- HTTP request method, as dispatched on by the views. -/
inductive Method
  | GET
  | POST
  deriving DecidableEq

/-- Python `str.strip()`: drop leading and trailing whitespace
characters (executable over the character list). -/
def pyStrip (s : String) : String :=
  String.mk
    (((s.data.dropWhile Char.isWhitespace).reverse.dropWhile
      Char.isWhitespace).reverse)

/-- `Post.objects.get(pk=post_id)` / `get_object_or_404(Post, pk=post_id)`. -/
def findPost (s : State) (pid : Nat) : Option Post :=
  s.posts.find? (fun p => p.id == pid)

/-- `get_object_or_404(User, username=username)`. -/
def findUser (s : State) (uname : String) : Option UserRec :=
  s.users.find? (fun u => u.username == uname)

/-- Whether a username is already present (the uniqueness constraint that
makes `create_user` raise `IntegrityError`). -/
def usernameTaken (s : State) (uname : String) : Bool :=
  s.users.any (fun u => u.username == uname)

/-- `Like.objects.filter(user=u, post=p).exists()` — the liked-state of a
(user, post) pair. -/
def likeExists (s : State) (u pid : Nat) : Bool :=
  s.likes.any (fun l => l.user == u && l.post == pid)

/-- `Follow.objects.filter(follower=a, following=b).exists()`. -/
def followExists (s : State) (a b : Nat) : Bool :=
  s.follows.any (fun f => f.follower == a && f.following == b)

/-- `post.likes.count()` — number of Like rows referencing the post. -/
def likeCount (s : State) (pid : Nat) : Nat :=
  (s.likes.filter (fun l => l.post == pid)).length

/-- The likes of one user, as the list of liked post ids
(`Like.objects.filter(user=u).values_list('post_id', flat=True)`). -/
def userLikes (s : State) (u : Nat) : List Nat :=
  (s.likes.filter (fun l => l.user == u)).map (fun l => l.post)

/-- The `unique_together ('user', 'post')` constraint of the Like table:
no two rows share the same (user, post) pair. -/
def LikesUnique (s : State) : Prop :=
  (s.likes.map (fun l => (l.user, l.post))).Nodup

/-- No Follow row is a self-follow edge. -/
def NoSelfFollow (s : State) : Prop :=
  ∀ f ∈ s.follows, f.follower ≠ f.following

/-! ### Ordering (`Post.Meta.ordering = ['-timestamp']`)

The source emits `ORDER BY timestamp DESC` with no secondary key, so
only the descending-by-timestamp property is guaranteed; the relative
order of rows with equal timestamps is unspecified by the program.  The
model refines this to one deterministic choice — a stable insertion
sort of the insertion-ordered row list — so properties that depend on
the order of equal-timestamp rows are properties of this refinement,
not of the program. -/

/-- Insert a post into a (descending) list, passing rows with strictly
larger timestamps. -/
def insertPost (p : Post) : List Post → List Post
  | [] => [p]
  | q :: qs =>
    if p.timestamp < q.timestamp then q :: insertPost p qs
    else p :: q :: qs

/-- Sort by timestamp, descending (newest first); stability across
equal timestamps is the model's choice, not a source guarantee. -/
def sortByTsDesc : List Post → List Post
  | [] => []
  | p :: ps => insertPost p (sortByTsDesc ps)

/-! ### Pagination (django.core.paginator, as used with `per_page = 10`) -/

/-- `Paginator.num_pages` with `orphans = 0` and
`allow_empty_first_page = True`: `ceil(max(1, count) / per_page)`. -/
def num_pages (count per : Nat) : Nat :=
  if count = 0 then 1 else (count + per - 1) / per

/-- The `page` request parameter as seen by `Paginator.get_page`: either
not an integer (absent or malformed, raising `PageNotAnInteger`) or an
integer value. -/
inductive PageArg
  | notAnInt
  | int (n : Int)
  deriving DecidableEq

/-- `Paginator.get_page`: `validate_number` raises `PageNotAnInteger` for
a non-integer (caught: page 1) and `EmptyPage` for an integer below 1 or
above `num_pages` (caught: the last page). -/
def getPageNumber (count per : Nat) (arg : PageArg) : Nat :=
  match arg with
  | .notAnInt => 1
  | .int n =>
    if n < 1 then num_pages count per
    else if (num_pages count per : Int) < n then num_pages count per
    else n.toNat

/-- The object list of page `pnum` (1-based): rows
`[(pnum-1)*per, pnum*per)`. -/
def pageSlice (l : List Post) (per pnum : Nat) : List Post :=
  (l.drop ((pnum - 1) * per)).take per

/-! ### Feed composition (the three feed variants) -/

/-- `Post.objects.all()` under the model ordering — the global feed. -/
def globalFeedPosts (s : State) : List Post :=
  sortByTsDesc s.posts

/-- `Post.objects.filter(user=profile_user)` under the model ordering —
the profile feed. -/
def profileFeedPosts (s : State) (uid : Nat) : List Post :=
  sortByTsDesc (s.posts.filter (fun p => p.user == uid))

/-- `Post.objects.filter(user__in=following_users)` under the model
ordering — the followed-authors feed. -/
def followingFeedPosts (s : State) (uid : Nat) : List Post :=
  sortByTsDesc (s.posts.filter (fun p =>
    ((s.follows.filter (fun f => f.follower == uid)).map
      (fun f => f.following)).contains p.user))

/-! ### Request handlers (views.py) -/

/-- Response of the `index` view: a redirect after creating a post, or a
render of the global feed page. -/
inductive IndexResponse
  | redirectIndex
  | renderFeed (pageItems : List Post) (likedIds : List Nat)
  deriving DecidableEq

/-- The render branch of `index`: global feed, paginated with page size
10, plus the requesting user's liked post ids. -/
def renderIndex (s : State) (requester : Option Nat) (page : PageArg) :
    IndexResponse × State :=
  let posts := globalFeedPosts s
  let pnum := getPageNumber posts.length 10 page
  let liked := match requester with
    | some u => userLikes s u
    | none => []
  (.renderFeed (pageSlice posts 10 pnum) liked, s)

/-- views.py `index`: an authenticated POST with non-empty stripped
content creates a Post and redirects; otherwise the global feed page is
rendered. -/
def index (s : State) (requester : Option Nat) (method : Method)
    (contentParam : Option String) (page : PageArg) : IndexResponse × State :=
  match method, requester with
  | .POST, some u =>
    let content := pyStrip (contentParam.getD "")
    if content ≠ "" then
      let p : Post := ⟨s.nextPostId, u, content, s.now⟩
      (.redirectIndex,
        { s with posts := s.posts ++ [p], nextPostId := s.nextPostId + 1 })
    else
      renderIndex s requester page
  | _, _ => renderIndex s requester page

/-- Response of the `register` view. -/
inductive RegisterResponse
  | renderForm (message : Option String)
  | redirectIndex
  deriving DecidableEq

/-- views.py `register`: on POST, a password/confirmation mismatch
re-renders with a message; a duplicate username raises `IntegrityError`,
caught and re-rendered with a message; otherwise the user is created and
the response redirects. -/
def register (s : State) (method : Method)
    (username email password confirmation : String) :
    RegisterResponse × State :=
  match method with
  | .POST =>
    if password ≠ confirmation then
      (.renderForm (some "Passwords must match."), s)
    else if usernameTaken s username then
      (.renderForm (some "Username already taken."), s)
    else
      (.redirectIndex,
        { s with
          users := s.users ++ [⟨s.nextUserId, username, email, password⟩],
          nextUserId := s.nextUserId + 1 })
  | _ => (.renderForm none, s)

/-- Response of the `follow` view: a redirect to the profile page, a
redirect to index (non-POST), or 404 (unknown username). -/
inductive FollowResponse
  | redirectProfile (username : String)
  | redirectIndex
  | notFound
  deriving DecidableEq

/-- views.py `follow` (login required; `requester` is the authenticated
user's id): POST toggles the follow edge unless the target is the
requester (self-follow: no-op redirect); non-POST redirects to index. -/
def follow (s : State) (requester : Nat) (method : Method)
    (username : String) : FollowResponse × State :=
  match method with
  | .POST =>
    match findUser s username with
    | none => (.notFound, s)
    | some pu =>
      if pu.id = requester then
        (.redirectProfile username, s)
      else if followExists s requester pu.id then
        (.redirectProfile username,
          { s with follows := s.follows.filter (fun f =>
              !(f.follower == requester && f.following == pu.id)) })
      else
        (.redirectProfile username,
          { s with follows := s.follows ++ [⟨requester, pu.id⟩] })
  | _ => (.redirectIndex, s)

/-- The request body of `edit_post`: either text that is not valid JSON
(so `json.loads` raises) or a JSON object whose `content` key may be
absent (`data.get("content", "")`). -/
inductive Body
  | invalidJson
  | jsonObj (content : Option String)
  deriving DecidableEq

/-- Response of the `edit_post` view. -/
inductive EditResponse
  | badMethod
  | notFound
  | forbidden
  | jsonException
  | emptyContent
  | ok (content : String)
  deriving DecidableEq

/-- The HTTP status of an `edit_post` outcome; `none` for the uncaught
`json.loads` exception, which never reaches a `JsonResponse`. -/
def EditResponse.status : EditResponse → Option Nat
  | .badMethod => some 400
  | .notFound => some 404
  | .forbidden => some 403
  | .jsonException => none
  | .emptyContent => some 400
  | .ok _ => some 200

/-- views.py `edit_post` (login required): non-POST gives a 400 JSON
error; missing post 404; a requester other than the author 403; then the
body is parsed (`json.loads` may raise), empty stripped content gives
400, and otherwise the post's content is replaced and saved. -/
def edit_post (s : State) (requester : Nat) (method : Method)
    (post_id : Nat) (body : Body) : EditResponse × State :=
  if method ≠ Method.POST then (.badMethod, s)
  else
    match findPost s post_id with
    | none => (.notFound, s)
    | some post =>
      if post.user ≠ requester then (.forbidden, s)
      else
        match body with
        | .invalidJson => (.jsonException, s)
        | .jsonObj c =>
          let content := pyStrip (c.getD "")
          if content = "" then (.emptyContent, s)
          else
            (.ok content,
              { s with posts := s.posts.map (fun p =>
                  if p.id == post_id then { p with content := content }
                  else p) })

/-- Response of the `like_post` view: on success the new liked-state and
the updated like count. -/
inductive LikeResponse
  | badMethod
  | notFound
  | ok (isLiked : Bool) (count : Nat)
  deriving DecidableEq

/-- views.py `like_post` (login required): non-POST gives a 400 JSON
error; missing post 404; otherwise the like is toggled
(`get_or_create`, then delete if it already existed) and the new
liked-state and updated count are returned. -/
def like_post (s : State) (requester : Nat) (method : Method)
    (post_id : Nat) : LikeResponse × State :=
  if method ≠ Method.POST then (.badMethod, s)
  else
    match findPost s post_id with
    | none => (.notFound, s)
    | some _ =>
      if likeExists s requester post_id then
        let s' := { s with likes := s.likes.filter (fun l =>
            !(l.user == requester && l.post == post_id)) }
        (.ok false (likeCount s' post_id), s')
      else
        let s' := { s with likes := s.likes ++ [⟨requester, post_id⟩] }
        (.ok true (likeCount s' post_id), s')

/-- A small concrete store used to instantiate the theorems: two users,
two posts, one like, one follow edge. -/
def sampleState : State :=
  { users := [⟨1, "alice", "alice@x", "pw1"⟩, ⟨2, "bob", "bob@x", "pw2"⟩],
    posts := [⟨1, 1, "hello", 5⟩, ⟨2, 2, "there", 3⟩],
    likes := [⟨2, 1⟩],
    follows := [⟨2, 1⟩],
    nextUserId := 3, nextPostId := 3, now := 9 }

/-- C1: for every post `p` and every authenticated POST to `edit_post` by
a user who is not `p`'s author, the response is a 403 error and the whole
store — in particular every field of `p` — is unchanged. -/
theorem edit_post_non_author_forbidden (s : State) (u pid : Nat)
    (body : Body) (p : Post) (hp : findPost s pid = some p)
    (hne : p.user ≠ u) :
    edit_post s u .POST pid body = (.forbidden, s) ∧
      (edit_post s u .POST pid body).1.status = some 403 := by
  have h : edit_post s u .POST pid body = (.forbidden, s) := by
    unfold edit_post
    simp [hp, hne]
  exact ⟨h, by rw [h]; rfl⟩

theorem edit_post_non_author_forbidden_witness :
    edit_post sampleState 2 .POST 1 (.jsonObj (some "hacked")) =
      (.forbidden, sampleState) ∧
    (edit_post sampleState 2 .POST 1 (.jsonObj (some "hacked"))).1.status =
      some 403 :=
  edit_post_non_author_forbidden sampleState 2 1 (.jsonObj (some "hacked"))
    ⟨1, 1, "hello", 5⟩ (by decide) (by decide)

/-- C9: for every authenticated request to `edit_post` whose method is
not POST, the response is the 400 JSON error and the store is unchanged
(no post is read or modified — the result is the same for every
`post_id`, present or absent). -/
theorem edit_post_wrong_method (s : State) (u pid : Nat) (m : Method)
    (body : Body) (hm : m ≠ .POST) :
    edit_post s u m pid body = (.badMethod, s) ∧
      (edit_post s u m pid body).1.status = some 400 := by
  have h : edit_post s u m pid body = (.badMethod, s) := by
    unfold edit_post
    simp [hm]
  exact ⟨h, by rw [h]; rfl⟩

theorem edit_post_wrong_method_witness :
    edit_post sampleState 1 .GET 999 (.jsonObj none) =
      (.badMethod, sampleState) ∧
    (edit_post sampleState 1 .GET 999 (.jsonObj none)).1.status =
      some 400 :=
  edit_post_wrong_method sampleState 1 999 .GET (.jsonObj none) (by decide)

/-- C10: an authenticated POST to `edit_post` by the post's author whose
body is not valid JSON reaches `json.loads`, which raises; the exception
propagates (no structured JSON response, status `none`) and the post is
unchanged. -/
theorem edit_post_invalid_json (s : State) (u pid : Nat) (p : Post)
    (hp : findPost s pid = some p) (hu : p.user = u) :
    edit_post s u .POST pid .invalidJson = (.jsonException, s) ∧
      (edit_post s u .POST pid .invalidJson).1.status = none := by
  have h : edit_post s u .POST pid .invalidJson = (.jsonException, s) := by
    unfold edit_post
    simp [hp, hu]
  exact ⟨h, by rw [h]; rfl⟩

theorem edit_post_invalid_json_witness :
    edit_post sampleState 1 .POST 1 .invalidJson =
      (.jsonException, sampleState) ∧
    (edit_post sampleState 1 .POST 1 .invalidJson).1.status = none :=
  edit_post_invalid_json sampleState 1 1 ⟨1, 1, "hello", 5⟩
    (by decide) (by decide)

/-- C4: a POST to `register` in which the password differs from the
confirmation re-renders the form with a message and changes no state:
in particular no User record is created. -/
theorem register_mismatch_no_user (s : State)
    (un em pw conf : String) (hne : pw ≠ conf) :
    register s .POST un em pw conf =
      (.renderForm (some "Passwords must match."), s) := by
  unfold register
  simp [hne]

theorem register_mismatch_no_user_witness :
    register sampleState .POST "carol" "c@x" "secret1" "secret2" =
      (.renderForm (some "Passwords must match."), sampleState) :=
  register_mismatch_no_user sampleState "carol" "c@x" "secret1" "secret2"
    (by decide)

/-- C8: a registration attempt with a username that already exists never
creates a User record (the store is unchanged), and when the passwords
match the uniqueness violation is caught and surfaced as the form
message "Username already taken." rather than an exception. -/
theorem register_duplicate_username (s : State)
    (un em pw conf : String) (htaken : usernameTaken s un = true) :
    (register s .POST un em pw conf).2 = s ∧
      (pw = conf →
        register s .POST un em pw conf =
          (.renderForm (some "Username already taken."), s)) := by
  constructor
  · unfold register
    by_cases hne : pw ≠ conf
    · simp [hne]
    · simp [hne, htaken]
  · intro hpc
    unfold register
    simp [hpc, htaken]

theorem register_duplicate_username_witness :
    (register sampleState .POST "alice" "a2@x" "pw" "pw").2 = sampleState ∧
    register sampleState .POST "alice" "a2@x" "pw" "pw" =
      (.renderForm (some "Username already taken."), sampleState) := by
  have h := register_duplicate_username sampleState "alice" "a2@x" "pw" "pw"
    (by decide)
  exact ⟨h.1, h.2 rfl⟩

/-- C3: a follow request whose target resolves to the requester is a
no-op redirect that creates no Follow record, and the `follow` handler
preserves the invariant that no state contains a self-follow edge: so no
reachable state contains a self-follow edge created through the
handlers. -/
theorem follow_self_noop (s : State) (u : Nat) (uname : String)
    (m : Method) :
    (∀ pu, findUser s uname = some pu → pu.id = u →
        follow s u .POST uname = (.redirectProfile uname, s)) ∧
      (NoSelfFollow s → NoSelfFollow (follow s u m uname).2) := by
  constructor
  · intro pu hpu hid
    unfold follow
    simp [hpu, hid]
  · intro hinv
    unfold follow
    cases m with
    | GET => exact hinv
    | POST =>
      cases hpu : findUser s uname with
      | none => exact hinv
      | some pu =>
        by_cases hid : pu.id = u
        · simp [hid]
          exact hinv
        · by_cases hex : followExists s u pu.id
          · simp [hid, hex]
            intro f hf
            exact hinv f (List.mem_of_mem_filter hf)
          · simp [hid, hex]
            intro f hf
            rcases List.mem_append.mp hf with h | h
            · exact hinv f h
            · rcases List.mem_singleton.mp h with rfl
              simpa using fun h => hid h.symm

theorem follow_self_noop_witness :
    follow sampleState 1 .POST "alice" =
      (.redirectProfile "alice", sampleState) ∧
    NoSelfFollow (follow sampleState 2 .POST "alice").2 := by
  refine ⟨(follow_self_noop sampleState 1 "alice" .POST).1
    ⟨1, "alice", "alice@x", "pw1"⟩ (by decide) (by decide), ?_⟩
  exact (follow_self_noop sampleState 2 "alice" .POST).2
    (by unfold NoSelfFollow sampleState; decide)

/-! ### Toggle lemmas -/

theorem filter_not_of_any_eq_false {α : Type} (l : List α) (q : α → Bool)
    (h : l.any q = false) : l.filter (fun x => !q x) = l := by
  rw [List.filter_eq_self]
  intro a ha
  simp only [List.any_eq_false] at h
  simp [h a ha]

theorem any_filter_not {α : Type} (l : List α) (q : α → Bool) :
    (l.filter (fun x => !q x)).any q = false := by
  simp only [List.any_eq_false]
  intro a ha
  have := List.of_mem_filter ha
  simp only [Bool.not_eq_true'] at this
  simp [this]

theorem length_filter_post_erase (l : List LikeRec) (u pid : Nat)
    (hnd : (l.map (fun x => (x.user, x.post))).Nodup)
    (hex : l.any (fun x => x.user == u && x.post == pid) = true) :
    ((l.filter (fun x => !(x.user == u && x.post == pid))).filter
        (fun x => x.post == pid)).length + 1 =
      (l.filter (fun x => x.post == pid)).length := by
  induction l with
  | nil => simp at hex
  | cons x xs ih =>
    rw [List.map_cons, List.nodup_cons] at hnd
    obtain ⟨hx, hxs⟩ := hnd
    by_cases hm : x.user = u ∧ x.post = pid
    · have hfilter :
          xs.filter (fun y => !(y.user == u && y.post == pid)) = xs := by
        apply filter_not_of_any_eq_false
        simp only [List.any_eq_false]
        intro a ha
        simp only [Bool.and_eq_true, beq_iff_eq]
        intro hcon
        exact hx (List.mem_map.mpr ⟨a, ha, by simp [hcon.1, hcon.2, hm.1, hm.2]⟩)
      have h1 : (x :: xs).filter (fun y => !(y.user == u && y.post == pid))
          = xs := by
        rw [List.filter_cons]
        have hpx : (!(x.user == u && x.post == pid)) = false := by
          simp [hm.1, hm.2]
        rw [hpx]
        simp only [Bool.false_eq_true, if_false]
        exact hfilter
      have h2 : (x :: xs).filter (fun y => y.post == pid)
          = x :: xs.filter (fun y => y.post == pid) := by
        rw [List.filter_cons]
        simp [hm.2]
      rw [h1, h2]
      simp
    · have hpx : (x.user == u && x.post == pid) = false := by
        simpa using hm
      have hex' : xs.any (fun y => y.user == u && y.post == pid) = true := by
        rw [List.any_cons, hpx] at hex
        simpa using hex
      have h1 : (x :: xs).filter (fun y => !(y.user == u && y.post == pid))
          = x :: xs.filter (fun y => !(y.user == u && y.post == pid)) := by
        rw [List.filter_cons]
        simp [hpx]
      rw [h1, List.filter_cons, List.filter_cons]
      by_cases hxp : x.post = pid
      · have hf : (x.post == pid) = true := by simpa using hxp
        simp only [hf, if_pos, List.length_cons]
        have := ih hxs hex'
        omega
      · have hf : (x.post == pid) = false := by simpa using hxp
        simp only [hf, Bool.false_eq_true, if_false]
        exact ih hxs hex'

theorem like_post_state_liked (s : State) (u pid : Nat) (p : Post)
    (hp : findPost s pid = some p) (hex : likeExists s u pid = true) :
    (like_post s u .POST pid).2 =
      { s with likes := s.likes.filter (fun l =>
          !(l.user == u && l.post == pid)) } := by
  unfold like_post
  rw [hp]
  simp [hex]

theorem like_post_state_not_liked (s : State) (u pid : Nat) (p : Post)
    (hp : findPost s pid = some p) (hex : likeExists s u pid = false) :
    (like_post s u .POST pid).2 =
      { s with likes := s.likes ++ [⟨u, pid⟩] } := by
  unfold like_post
  rw [hp]
  simp [hex]

theorem follow_state_exists (s : State) (a : Nat) (uname : String)
    (b : UserRec) (hb : findUser s uname = some b) (hid : b.id ≠ a)
    (hfex : followExists s a b.id = true) :
    (follow s a .POST uname).2 =
      { s with follows := s.follows.filter (fun f =>
          !(f.follower == a && f.following == b.id)) } := by
  unfold follow
  rw [hb]
  simp [hid, hfex]

theorem follow_state_not_exists (s : State) (a : Nat) (uname : String)
    (b : UserRec) (hb : findUser s uname = some b) (hid : b.id ≠ a)
    (hfex : followExists s a b.id = false) :
    (follow s a .POST uname).2 =
      { s with follows := s.follows ++ [⟨a, b.id⟩] } := by
  unfold follow
  rw [hb]
  simp [hid, hfex]

/-- C2: toggling twice restores the original association state: two
like-toggles on the same (user, post) restore the liked-state and the
like count, and two follow-toggles restore the follow-edge existence (in
particular, starting from no edge, no Follow edge (follower=A,
following=B) exists after the second toggle). -/
theorem toggle_twice_restores (s : State) (u pid : Nat) (p : Post)
    (hp : findPost s pid = some p) (hun : LikesUnique s)
    (a : Nat) (uname : String) (b : UserRec)
    (hb : findUser s uname = some b) :
    (likeExists (like_post (like_post s u .POST pid).2 u .POST pid).2 u pid
        = likeExists s u pid ∧
     likeCount (like_post (like_post s u .POST pid).2 u .POST pid).2 pid
        = likeCount s pid) ∧
    followExists (follow (follow s a .POST uname).2 a .POST uname).2 a b.id
        = followExists s a b.id := by
  constructor
  · by_cases hex : likeExists s u pid
    · have hp1 : findPost { s with likes := s.likes.filter (fun l =>
          !(l.user == u && l.post == pid)) } pid = some p := hp
      have hex1 : likeExists { s with likes := s.likes.filter (fun l =>
          !(l.user == u && l.post == pid)) } u pid = false := by
        unfold likeExists
        exact any_filter_not s.likes _
      rw [like_post_state_liked s u pid p hp hex]
      rw [like_post_state_not_liked _ u pid p hp1 hex1]
      constructor
      · rw [hex]
        unfold likeExists
        simp
      · unfold likeCount
        show ((s.likes.filter _ ++ [(⟨u, pid⟩ : LikeRec)]).filter _).length
          = _
        rw [List.filter_append]
        simp only [List.filter_cons, List.filter_nil, beq_self_eq_true,
          if_pos]
        rw [List.length_append]
        simp only [List.length_cons, List.length_nil]
        exact length_filter_post_erase s.likes u pid hun hex
    · have hexf : likeExists s u pid = false := by simpa using hex
      rw [like_post_state_not_liked s u pid p hp hexf]
      have hp1 : findPost { s with likes := s.likes ++ [⟨u, pid⟩] } pid =
          some p := hp
      have hex1 : likeExists { s with likes := s.likes ++ [⟨u, pid⟩] } u pid
          = true := by
        unfold likeExists
        simp
      rw [like_post_state_liked _ u pid p hp1 hex1]
      have hlikes :
          (s.likes ++ [(⟨u, pid⟩ : LikeRec)]).filter (fun l =>
            !(l.user == u && l.post == pid)) = s.likes := by
        rw [List.filter_append, filter_not_of_any_eq_false s.likes _ hexf]
        simp
      constructor
      · show ((s.likes ++ [(⟨u, pid⟩ : LikeRec)]).filter _).any _ = _
        rw [hlikes]
        rfl
      · show ((((s.likes ++ [(⟨u, pid⟩ : LikeRec)]).filter _)).filter
            _).length = _
        rw [hlikes]
        rfl
  · by_cases hid : b.id = a
    · have h1 : (follow s a .POST uname).2 = s := by
        unfold follow
        rw [hb]
        simp [hid]
      rw [h1, h1]
    · by_cases hfex : followExists s a b.id
      · have hb1 :
            findUser { s with follows := s.follows.filter (fun f => !(f.follower == a && f.following == b.id)) } uname = some b := hb
        have hfex1 :
            followExists { s with follows := s.follows.filter (fun f => !(f.follower == a && f.following == b.id)) } a b.id = false := by
          unfold followExists
          exact any_filter_not s.follows _
        rw [follow_state_exists s a uname b hb hid hfex]
        rw [follow_state_not_exists _ a uname b hb1 hid hfex1]
        rw [hfex]
        unfold followExists
        simp
      · have hfexf : followExists s a b.id = false := by simpa using hfex
        rw [follow_state_not_exists s a uname b hb hid hfexf]
        have hb1 :
            findUser { s with follows := s.follows ++ [(⟨a, b.id⟩ : FollowRec)] } uname = some b := hb
        have hfex1 :
            followExists { s with follows := s.follows ++ [(⟨a, b.id⟩ : FollowRec)] } a b.id = true := by
          unfold followExists
          simp
        rw [follow_state_exists _ a uname b hb1 hid hfex1]
        have hfollows :
            (s.follows ++ [(⟨a, b.id⟩ : FollowRec)]).filter (fun f =>
              !(f.follower == a && f.following == b.id)) = s.follows := by
          rw [List.filter_append, filter_not_of_any_eq_false s.follows _ hfexf]
          simp
        show ((s.follows ++ [(⟨a, b.id⟩ : FollowRec)]).filter _).any _ = _
        rw [hfollows]
        rfl
theorem toggle_twice_restores_witness :
    (likeExists (like_post (like_post sampleState 2 .POST 1).2
        2 .POST 1).2 2 1 = likeExists sampleState 2 1 ∧
     likeCount (like_post (like_post sampleState 2 .POST 1).2
        2 .POST 1).2 1 = likeCount sampleState 1) ∧
    followExists (follow (follow sampleState 2 .POST "alice").2
        2 .POST "alice").2 2 1 = followExists sampleState 2 1 :=
  toggle_twice_restores sampleState 2 1 ⟨1, 1, "hello", 5⟩ (by decide)
    (by unfold LikesUnique sampleState; decide) 2 "alice"
    ⟨1, "alice", "alice@x", "pw1"⟩ (by decide)

/-- C6 counterexample: with 15 posts and page size 10 there are two
pages, and `get_page` with the integer page number 0 — below 1 — returns
the last page (2), not the first page as the claim states. -/
theorem get_page_below_one_counterexample :
    num_pages 15 10 = 2 ∧
    getPageNumber 15 10 (.int 0) = 2 ∧
    getPageNumber 15 10 (.int 0) ≠ 1 := by
  refine ⟨rfl, rfl, by decide⟩

/-- C6 (amended): page selection never errors and always yields a valid
page: a non-integer or missing page number yields the first page; an
integer page number below 1 or above the last page yields the LAST
page; an in-range page number is used as is. -/
theorem get_page_clamps (count per : Nat) (n : Int) (hper : 0 < per) :
    1 ≤ num_pages count per ∧
    getPageNumber count per .notAnInt = 1 ∧
    (n < 1 → getPageNumber count per (.int n) = num_pages count per) ∧
    ((num_pages count per : Int) < n →
      getPageNumber count per (.int n) = num_pages count per) ∧
    (1 ≤ n → n ≤ (num_pages count per : Int) →
      getPageNumber count per (.int n) = n.toNat) ∧
    1 ≤ getPageNumber count per (.int n) ∧
    getPageNumber count per (.int n) ≤ num_pages count per := by
  have hnp : 1 ≤ num_pages count per := by
    unfold num_pages
    split
    · omega
    · rename_i hc
      exact (Nat.one_le_div_iff hper).mpr (by omega)
  have hshow : getPageNumber count per (.int n) =
      if n < 1 then num_pages count per
      else if (num_pages count per : Int) < n then num_pages count per
      else n.toNat := rfl
  refine ⟨hnp, rfl, ?_, ?_, ?_, ?_, ?_⟩
  · intro h
    rw [hshow, if_pos h]
  · intro h
    rw [hshow, if_neg (by omega), if_pos h]
  · intro h1 h2
    rw [hshow, if_neg (by omega), if_neg (by omega)]
  · rw [hshow]
    split
    · exact hnp
    · split
      · exact hnp
      · omega
  · rw [hshow]
    split
    · exact Nat.le_refl _
    · split
      · exact Nat.le_refl _
      · omega

theorem get_page_clamps_witness :
    1 ≤ num_pages 15 10 ∧
    getPageNumber 15 10 (.int 99) = num_pages 15 10 := by
  have h := get_page_clamps 15 10 99 (by decide)
  exact ⟨h.1, h.2.2.2.1 (by decide)⟩

/-- C7: an authenticated POST to `index` whose content is non-empty
after trimming appends exactly one Post holding the trimmed content and
redirects; when the content trims to empty no Post is created, the
state is unchanged, and the feed page is rendered (no error). -/
theorem index_post_behavior (s : State) (u : Nat) (c : Option String)
    (pg : PageArg) :
    (pyStrip (c.getD "") ≠ "" →
      index s (some u) .POST c pg =
        (.redirectIndex,
          { s with
            posts := s.posts ++
              [⟨s.nextPostId, u, pyStrip (c.getD ""), s.now⟩],
            nextPostId := s.nextPostId + 1 })) ∧
    (pyStrip (c.getD "") = "" →
      index s (some u) .POST c pg =
        (.renderFeed
          (pageSlice (globalFeedPosts s) 10
            (getPageNumber (globalFeedPosts s).length 10 pg))
          (userLikes s u), s)) := by
  constructor
  · intro h
    unfold index
    simp [h]
  · intro h
    unfold index renderIndex
    simp [h]

theorem index_post_behavior_witness :
    index sampleState (some 1) .POST (some "  hi  ") .notAnInt =
      (.redirectIndex,
        { sampleState with
          posts := sampleState.posts ++
            [⟨sampleState.nextPostId, 1, pyStrip ((some "  hi  ").getD ""),
              sampleState.now⟩],
          nextPostId := sampleState.nextPostId + 1 }) ∧
    index sampleState (some 1) .POST (some "   ") .notAnInt =
      (.renderFeed
        (pageSlice (globalFeedPosts sampleState) 10
          (getPageNumber (globalFeedPosts sampleState).length 10 .notAnInt))
        (userLikes sampleState 1), sampleState) :=
  ⟨(index_post_behavior sampleState 1 (some "  hi  ") .notAnInt).1
      (by decide),
   (index_post_behavior sampleState 1 (some "   ") .notAnInt).2
      (by decide)⟩

end Network
